import Mathlib

/-!
Verification of the guardias timesheet application (src/app.py, src/db.py,
src/auth.py, src/excel_io.py) against its natural-language specification.

The development shallowly embeds the relevant Python functions:

* Pure grid/projection helpers of `src/app.py` (`month_dates`, `build_month_df`,
  `items_to_month_df`, the item-building loop of `save_month_df_as_items`)
  become Lean functions over explicit `List` values.  A pandas `DataFrame` row
  of the month grid becomes the structure `Row`; an `items` table row becomes
  the structure `Item`.  Python `float` cell values are modelled as `ℚ`
  (exact arithmetic; the claims under study are about which items are emitted
  and how values are summed, not about rounding).
* The database tables of `src/db.py` become explicit state: the `partes`
  table is a map `(legajo, periodo) → Option ParteData` (its `UNIQUE(legajo,
  periodo_yyyymm)` constraint makes one row per key), the `personal` table a
  map `legajo → Option Person` (`legajo` is the primary key), and the `items`
  table a `List Item` (it has no uniqueness constraint, so multiplicity
  matters).  SQL `UPDATE`, `INSERT .. ON CONFLICT`, `DELETE .. WHERE` become
  the corresponding pure state transformers, with the `str(x).strip()` calls
  of the Python code modelled by the function `strip` below.
* ISO date strings (`date.isoformat()`) are modelled by the structure `Date`;
  equality of ISO strings for dates produced by `datetime.date` coincides
  with field-wise equality.
-/

namespace AppGuardias

/-- The six item kinds of the `items.tipo` column
(`CHECK(tipo IN ('G','F','D','HO','HV','HE'))`, src/db.py).  `G`, `F`, `D`,
`HO` are boolean day-flag kinds; `HV`, `HE` are numeric accumulation kinds. -/
inductive Tipo where
  | G
  | F
  | D
  | HO
  | HV
  | HE
deriving DecidableEq, Repr

/-- A calendar date, modelling the `datetime.date` values / ISO strings used
for the `fecha` column. -/
structure Date where
  year : Nat
  month : Nat
  day : Nat
deriving DecidableEq, Repr

/-- One row of the `items` table (src/db.py `migrate`): employee id, date,
kind, optional text value, optional numeric value, optional comment. -/
structure Item where
  legajo : String
  fecha : Date
  tipo : Tipo
  valor_text : Option String
  valor_num : Option ℚ
  comentario : Option String
deriving DecidableEq, Repr

/-- One row of the editable month grid built by `build_month_df`
(src/app.py): the `Fecha`, `G`, `F`, `D`, `HO`, `HV`, `HE`, `Comentario`
columns. -/
structure Row where
  fecha : Date
  g : Bool
  f : Bool
  d : Bool
  ho : Bool
  hv : ℚ
  he : ℚ
  comentario : String
deriving DecidableEq, Repr

/-- `TIPOS_DIA = ["G", "F", "D", "HO"]` (src/app.py line 34): the boolean
flag kinds. -/
def TIPOS_DIA : List Tipo := [Tipo.G, Tipo.F, Tipo.D, Tipo.HO]

/-- Leap-year rule used by Python `calendar.monthrange` (via
`calendar.isleap`): divisible by 4 and (not by 100 or by 400). -/
def isLeap (y : Nat) : Bool :=
  y % 4 == 0 && (y % 100 != 0 || y % 400 == 0)

/-- Number of days in a month, as returned by `calendar.monthrange(y, m)[1]`
(src/app.py `month_bounds`). -/
def daysInMonth (y m : Nat) : Nat :=
  if m = 2 then (if isLeap y then 29 else 28)
  else if m = 4 ∨ m = 6 ∨ m = 9 ∨ m = 11 then 30
  else 31

/-- `month_dates(y, m)` (src/app.py lines 47-49): the list of dates
`date(y, m, 1) .. date(y, m, last_day)`. -/
def month_dates (y m : Nat) : List Date :=
  (List.range (daysInMonth y m)).map fun i => { year := y, month := m, day := i + 1 }

/-- `build_month_df(y, m)` (src/app.py lines 93-101): one grid row per day of
the month, flags `False`, numeric cells `0.0`, comment `""`. -/
def build_month_df (y m : Nat) : List Row :=
  (month_dates y m).map fun dt =>
    { fecha := dt, g := false, f := false, d := false, ho := false,
      hv := 0, he := 0, comentario := "" }

/-- C6: for every year and month, `build_month_df` returns a grid with
exactly `daysInMonth` rows — 29 rows for February of a leap year, 28
otherwise, 30 or 31 for the other months — with the four boolean flag columns
false, the two numeric columns zero, and the comment column empty on every
row. -/
theorem build_month_df_spec (y m : Nat) :
    (build_month_df y m).length = daysInMonth y m ∧
    (isLeap y = true → (build_month_df y 2).length = 29) ∧
    (isLeap y = false → (build_month_df y 2).length = 28) ∧
    (m = 4 ∨ m = 6 ∨ m = 9 ∨ m = 11 → (build_month_df y m).length = 30) ∧
    (¬ (m = 2 ∨ m = 4 ∨ m = 6 ∨ m = 9 ∨ m = 11) → (build_month_df y m).length = 31) ∧
    (∀ r ∈ build_month_df y m,
      r.g = false ∧ r.f = false ∧ r.d = false ∧ r.ho = false ∧
      r.hv = 0 ∧ r.he = 0 ∧ r.comentario = "") := by
  refine ⟨?_, ?_, ?_, ?_, ?_, ?_⟩
  · simp [build_month_df, month_dates]
  · intro h
    simp [build_month_df, month_dates, daysInMonth, h]
  · intro h
    simp [build_month_df, month_dates, daysInMonth, h]
  · intro h
    have hm2 : m ≠ 2 := by rcases h with h | h | h | h <;> omega
    simp [build_month_df, month_dates, daysInMonth, hm2, h]
  · intro h
    push_neg at h
    obtain ⟨h2, h4, h6, h9, h11⟩ := h
    simp [build_month_df, month_dates, daysInMonth, h2, h4, h6, h9, h11]
  · intro r hr
    simp only [build_month_df, List.mem_map] at hr
    obtain ⟨dt, _, rfl⟩ := hr
    exact ⟨rfl, rfl, rfl, rfl, rfl, rfl, rfl⟩

/-- Witness for `build_month_df_spec`: February 2024 (a leap year) has 29
rows, all initialized to false/zero/empty. -/
theorem build_month_df_spec_witness :
    (build_month_df 2024 2).length = 29 ∧
    ∀ r ∈ build_month_df 2024 2,
      r.g = false ∧ r.f = false ∧ r.d = false ∧ r.ho = false ∧
      r.hv = 0 ∧ r.he = 0 ∧ r.comentario = "" :=
  ⟨(build_month_df_spec 2024 2).2.1 (by decide),
   (build_month_df_spec 2024 2).2.2.2.2.2⟩

/-- Python `str.strip()` with no arguments: remove leading and trailing
whitespace.  Implemented over the character list so that concrete instances
evaluate by kernel reduction (`String.trim` would not). -/
def strip (s : String) : String :=
  String.mk (((s.data.dropWhile Char.isWhitespace).reverse.dropWhile Char.isWhitespace).reverse)

/-- Python `str.lower()` restricted to the alphabets the app uses:
character-wise lower-casing. -/
def lower (s : String) : String :=
  String.mk (s.data.map Char.toLower)

/-! ### The `partes` (timesheet) table, src/db.py -/

/-- The non-key columns of one `partes` row (src/db.py `migrate`): state,
submission timestamp, approval timestamp, approving leader id, rejection
comment.  The key `(legajo, periodo_yyyymm)` is held by the map `PartesDB`;
the `UNIQUE(legajo, periodo_yyyymm)` constraint makes the table a partial map
on that key, which is what the map model encodes. -/
structure ParteData where
  estado : String
  submitted_at : Option String
  approved_at : Option String
  approved_by_legajo : Option String
  rejection_comment : Option String
deriving DecidableEq, Repr

/-- The `partes` table as a map from `(legajo, periodo_yyyymm)` to the row
data. -/
def PartesDB : Type := String × String → Option ParteData

/-- `get_or_create_parte` (src/db.py lines 332-368):
`INSERT INTO partes (legajo, periodo_yyyymm, estado) VALUES (l, p, 'BORRADOR')
ON CONFLICT DO NOTHING` followed by a `SELECT` of the row; the unnamed
columns default to NULL.  Returns the selected row and the updated table. -/
def get_or_create_parte (db : PartesDB) (legajo periodo_yyyymm : String) :
    ParteData × PartesDB :=
  let l := strip legajo
  let p := strip periodo_yyyymm
  match db (l, p) with
  | some r => (r, db)
  | none =>
      let r : ParteData :=
        { estado := "BORRADOR", submitted_at := none, approved_at := none,
          approved_by_legajo := none, rejection_comment := none }
      (r, fun k => if k = (l, p) then some r else db k)

/-- SQL `COALESCE(new, old)` for two arguments, as used in
`update_parte_estado`. -/
def coalesce (new old : Option String) : Option String :=
  match new with
  | some v => some v
  | none => old

/-- `update_parte_estado` (src/db.py lines 371-414):
`UPDATE partes SET estado = nuevo, submitted_at = COALESCE(?, submitted_at),
approved_at = COALESCE(?, approved_at), approved_by_legajo = COALESCE(?,
approved_by_legajo), rejection_comment = ? WHERE legajo = l AND
periodo_yyyymm = p`.  Note the asymmetry: the three timestamp/leader columns
go through COALESCE, the rejection comment is assigned the parameter
directly. -/
def update_parte_estado (db : PartesDB) (legajo periodo_yyyymm nuevo_estado : String)
    (submitted_at approved_at approved_by_legajo rejection_comment : Option String) :
    PartesDB :=
  let l := strip legajo
  let p := strip periodo_yyyymm
  fun k =>
    if k = (l, p) then
      (db k).map fun r =>
        { estado := nuevo_estado,
          submitted_at := coalesce submitted_at r.submitted_at,
          approved_at := coalesce approved_at r.approved_at,
          approved_by_legajo := coalesce approved_by_legajo r.approved_by_legajo,
          rejection_comment := rejection_comment }
    else db k

/-- C4: `get_or_create_parte` is idempotent: it returns the existing row
when one exists (modifying nothing), otherwise it creates exactly one new row
in state BORRADOR with all optional columns NULL and changes no other key;
a repeated call returns the same row and the same table.  (At most one row
per key is structural in the map model, justified by the UNIQUE constraint
together with ON CONFLICT DO NOTHING.) -/
theorem get_or_create_parte_idempotent (db : PartesDB) (legajo periodo : String) :
    (∀ r, db (strip legajo, strip periodo) = some r →
        get_or_create_parte db legajo periodo = (r, db)) ∧
    (db (strip legajo, strip periodo) = none →
        (get_or_create_parte db legajo periodo).1 =
          { estado := "BORRADOR", submitted_at := none, approved_at := none,
            approved_by_legajo := none, rejection_comment := none } ∧
        (get_or_create_parte db legajo periodo).2 (strip legajo, strip periodo) =
          some (get_or_create_parte db legajo periodo).1 ∧
        (∀ k, k ≠ (strip legajo, strip periodo) →
          (get_or_create_parte db legajo periodo).2 k = db k)) ∧
    get_or_create_parte (get_or_create_parte db legajo periodo).2 legajo periodo =
      ((get_or_create_parte db legajo periodo).1,
       (get_or_create_parte db legajo periodo).2) := by
  refine ⟨?_, ?_, ?_⟩
  · intro r h
    simp [get_or_create_parte, h]
  · intro h
    refine ⟨?_, ?_, ?_⟩
    · simp [get_or_create_parte, h]
    · simp [get_or_create_parte, h]
    · intro k hk
      simp [get_or_create_parte, h, hk]
  · cases h : db (strip legajo, strip periodo) with
    | some r => simp [get_or_create_parte, h]
    | none => simp [get_or_create_parte, h]

/-- The empty `partes` table. -/
def emptyPartes : PartesDB := fun _ => none

/-- Witness for `get_or_create_parte_idempotent`: on the empty table the
first access creates a BORRADOR row with NULL optional columns, and a second
access returns it unchanged. -/
theorem get_or_create_parte_idempotent_witness :
    (get_or_create_parte emptyPartes "5478" "202501").1 =
      { estado := "BORRADOR", submitted_at := none, approved_at := none,
        approved_by_legajo := none, rejection_comment := none } ∧
    get_or_create_parte (get_or_create_parte emptyPartes "5478" "202501").2 "5478" "202501" =
      ((get_or_create_parte emptyPartes "5478" "202501").1,
       (get_or_create_parte emptyPartes "5478" "202501").2) :=
  ⟨((get_or_create_parte_idempotent emptyPartes "5478" "202501").2.1 rfl).1,
   (get_or_create_parte_idempotent emptyPartes "5478" "202501").2.2⟩

/-- C9: in `update_parte_estado` the submission timestamp, approval timestamp
and approving-leader id are only ever replaced by non-null arguments (a null
argument preserves the stored value, and a value once set never becomes
null), while the rejection comment is overwritten with the passed argument on
every transition, including null. -/
theorem update_parte_estado_column_policy (db : PartesDB)
    (legajo periodo nuevo : String) (sa aa ab rc : Option String) (r : ParteData)
    (h : db (strip legajo, strip periodo) = some r) :
    ∃ r2,
      update_parte_estado db legajo periodo nuevo sa aa ab rc
          (strip legajo, strip periodo) = some r2 ∧
      r2.estado = nuevo ∧
      (sa = none → r2.submitted_at = r.submitted_at) ∧
      (∀ v, sa = some v → r2.submitted_at = some v) ∧
      (r.submitted_at ≠ none → r2.submitted_at ≠ none) ∧
      (aa = none → r2.approved_at = r.approved_at) ∧
      (∀ v, aa = some v → r2.approved_at = some v) ∧
      (r.approved_at ≠ none → r2.approved_at ≠ none) ∧
      (ab = none → r2.approved_by_legajo = r.approved_by_legajo) ∧
      (∀ v, ab = some v → r2.approved_by_legajo = some v) ∧
      (r.approved_by_legajo ≠ none → r2.approved_by_legajo ≠ none) ∧
      r2.rejection_comment = rc := by
  refine ⟨{ estado := nuevo, submitted_at := coalesce sa r.submitted_at,
            approved_at := coalesce aa r.approved_at,
            approved_by_legajo := coalesce ab r.approved_by_legajo,
            rejection_comment := rc },
         by simp [update_parte_estado, h], rfl, ?_, ?_, ?_, ?_, ?_, ?_, ?_, ?_, ?_, rfl⟩
  · intro hsa; simp [coalesce, hsa]
  · intro v hsa; simp [coalesce, hsa]
  · intro hset
    cases hsa : sa with
    | none => simpa [coalesce, hsa] using hset
    | some v => simp [coalesce, hsa]
  · intro haa; simp [coalesce, haa]
  · intro v haa; simp [coalesce, haa]
  · intro hset
    cases haa : aa with
    | none => simpa [coalesce, haa] using hset
    | some v => simp [coalesce, haa]
  · intro hab; simp [coalesce, hab]
  · intro v hab; simp [coalesce, hab]
  · intro hset
    cases hab : ab with
    | none => simpa [coalesce, hab] using hset
    | some v => simp [coalesce, hab]

/-- A `partes` table holding one submitted (ENVIADO) timesheet, used as a
concrete input by the witnesses. -/
def enviadoPartes : PartesDB := fun k =>
  if k = ("5478", "202501") then
    some { estado := "ENVIADO", submitted_at := some "2025-02-01 09:00:00",
           approved_at := none, approved_by_legajo := none,
           rejection_comment := none }
  else none

/-- Witness for `update_parte_estado_column_policy`: approving the submitted
example timesheet keeps the stored submission timestamp (null argument),
sets the approval columns, and overwrites the rejection comment with null. -/
theorem update_parte_estado_column_policy_witness :
    ∃ r2,
      update_parte_estado enviadoPartes "5478" "202501" "APROBADO"
          none (some "2025-02-02 10:00:00") (some "9000") none
          ("5478", "202501") = some r2 ∧
      r2.submitted_at = some "2025-02-01 09:00:00" ∧
      r2.approved_at = some "2025-02-02 10:00:00" ∧
      r2.rejection_comment = none := by
  obtain ⟨r2, hr2, _, hsa, _, _, _, haa, _, _, _, _, hrc⟩ :=
    update_parte_estado_column_policy enviadoPartes "5478" "202501" "APROBADO"
      none (some "2025-02-02 10:00:00") (some "9000") none
      { estado := "ENVIADO", submitted_at := some "2025-02-01 09:00:00",
        approved_at := none, approved_by_legajo := none,
        rejection_comment := none } (by decide)
  exact ⟨r2, hr2, hsa rfl, haa _ rfl, hrc⟩

/-! ### Grid projection, src/app.py -/

/-- The items grouped under one date by the `by_date` dictionary of
`items_to_month_df` (src/app.py lines 109-112), in table order. -/
def dayItems (items : List Item) (dt : Date) : List Item :=
  items.filter fun it => it.fecha == dt

/-- Flag cell of `items_to_month_df`: `flags[tipo] = True` as soon as any
item of that kind exists for the date (src/app.py lines 117, 122-124). -/
def flagOf (lst : List Item) (t : Tipo) : Bool :=
  lst.any fun it => it.tipo == t

/-- Numeric cell of `items_to_month_df`: running sum
`hv += float(it["valor_num"] or 0.0)` over the date's items of the kind
(src/app.py lines 118-119, 125-128); a missing value contributes zero. -/
def sumNum (lst : List Item) (t : Tipo) : ℚ :=
  (lst.filter fun it => it.tipo == t).foldl (fun acc it => acc + it.valor_num.getD 0) 0

/-- Comment cell of `items_to_month_df`: the first non-empty comment among
the date's items (src/app.py lines 120, 129-130). -/
def firstComment (lst : List Item) : String :=
  match lst.find? (fun it => it.comentario.getD "" != "") with
  | some it => it.comentario.getD ""
  | none => ""

/-- One grid row of `items_to_month_df` for a given date: flags, numeric
sums and comment computed from that date's items. -/
def rowFor (items : List Item) (dt : Date) : Row :=
  let lst := dayItems items dt
  { fecha := dt,
    g := flagOf lst Tipo.G, f := flagOf lst Tipo.F,
    d := flagOf lst Tipo.D, ho := flagOf lst Tipo.HO,
    hv := sumNum lst Tipo.HV, he := sumNum lst Tipo.HE,
    comentario := firstComment lst }

/-- `items_to_month_df(items_rows, y, m)` (src/app.py lines 104-138): the
month grid with each day's cells computed from the items of that date.  (The
Python early return for an empty item list produces the same grid as the
general loop, since all cells then default to false/zero/empty.) -/
def items_to_month_df (items : List Item) (y m : Nat) : List Row :=
  (month_dates y m).map (rowFor items)

/-- The comment attached to every item emitted for a grid row:
`(r.get("Comentario") or "").strip() or None` (src/app.py line 157). -/
def rowComment (r : Row) : Option String :=
  if strip r.comentario = "" then none else some (strip r.comentario)

/-- A flag item emitted by the save loop (src/app.py lines 159-163):
`valor_text = "1"`, no numeric value. -/
def flagItem (legajo : String) (r : Row) (t : Tipo) : Item :=
  { legajo := legajo, fecha := r.fecha, tipo := t, valor_text := some "1",
    valor_num := none, comentario := rowComment r }

/-- A numeric item emitted by the save loop (src/app.py lines 168-171):
no text value, `valor_num` carries the cell value. -/
def numItem (legajo : String) (r : Row) (t : Tipo) (v : ℚ) : Item :=
  { legajo := legajo, fecha := r.fecha, tipo := t, valor_text := none,
    valor_num := some v, comentario := rowComment r }

/-- Items emitted for one grid row by the loop body of
`save_month_df_as_items` (src/app.py lines 155-171): one flag item per true
flag column, in `TIPOS_DIA` order, then an HV item if the HV cell is
strictly positive, then an HE item if the HE cell is strictly positive. -/
def rowItems (legajo : String) (r : Row) : List Item :=
  (if r.g then [flagItem legajo r Tipo.G] else []) ++
  (if r.f then [flagItem legajo r Tipo.F] else []) ++
  (if r.d then [flagItem legajo r Tipo.D] else []) ++
  (if r.ho then [flagItem legajo r Tipo.HO] else []) ++
  (if 0 < r.hv then [numItem legajo r Tipo.HV r.hv] else []) ++
  (if 0 < r.he then [numItem legajo r Tipo.HE r.he] else [])

/-- The full item list built by `save_month_df_as_items` before insertion:
the concatenation of every row's emitted items, in row order.  This is the
`gridToItems` direction of the projection. -/
def grid_to_items (legajo : String) (df : List Row) : List Item :=
  df.flatMap (rowItems legajo)

/-! ### The `items` table, src/db.py -/

/-- `delete_items_for_dates` (src/db.py lines 477-497): with an empty date
list the function returns without touching the table; otherwise
`DELETE FROM items WHERE legajo = strip(legajo) AND fecha IN fechas`. -/
def delete_items_for_dates (table : List Item) (legajo : String) (fechas : List Date) :
    List Item :=
  if fechas.isEmpty then table
  else table.filter fun it => !(it.legajo == strip legajo && fechas.contains it.fecha)

/-- `insert_items` (src/db.py lines 500-546): with an empty item list the
function returns without touching the table; otherwise the items are
appended, each with its employee id stripped (the date and kind columns are
also stripped in the source, which is the identity on the `Date`/`Tipo`
model). -/
def insert_items (table : List Item) (items : List Item) : List Item :=
  if items.isEmpty then table
  else table ++ items.map fun it => { it with legajo := strip it.legajo }

/-- `save_month_df_as_items(legajo, y, m, df)` (src/app.py lines 150-173) as
a transformer of the `items` table: delete the employee's items on the
grid's dates, then insert the items rebuilt from the grid.  (As in the
source, the year/month arguments are not consulted: the date list is taken
from the grid itself.) -/
def save_month_df_as_items (table : List Item) (legajo : String) (y m : Nat)
    (df : List Row) : List Item :=
  let fechas := df.map Row.fecha
  insert_items (delete_items_for_dates table legajo fechas) (grid_to_items legajo df)

/-! ### Round-trip lemmas for the grid projection -/

lemma mem_ite_singleton {α : Type} {c : Prop} [Decidable c] {x a : α} :
    a ∈ (if c then [x] else ([] : List α)) ↔ c ∧ a = x := by
  split_ifs with h <;> simp [h]

lemma mem_rowItems {legajo : String} {r : Row} {it : Item} :
    it ∈ rowItems legajo r ↔
      (r.g = true ∧ it = flagItem legajo r Tipo.G) ∨
      (r.f = true ∧ it = flagItem legajo r Tipo.F) ∨
      (r.d = true ∧ it = flagItem legajo r Tipo.D) ∨
      (r.ho = true ∧ it = flagItem legajo r Tipo.HO) ∨
      (0 < r.hv ∧ it = numItem legajo r Tipo.HV r.hv) ∨
      (0 < r.he ∧ it = numItem legajo r Tipo.HE r.he) := by
  constructor
  · intro h
    simp only [rowItems, List.mem_append, mem_ite_singleton] at h
    tauto
  · intro h
    simp only [rowItems, List.mem_append, mem_ite_singleton]
    tauto

lemma rowItems_fecha {legajo : String} {r : Row} {it : Item}
    (h : it ∈ rowItems legajo r) : it.fecha = r.fecha := by
  rcases mem_rowItems.mp h with ⟨_, rfl⟩ | ⟨_, rfl⟩ | ⟨_, rfl⟩ | ⟨_, rfl⟩ | ⟨_, rfl⟩ | ⟨_, rfl⟩ <;>
    rfl

lemma rowItems_legajo {legajo : String} {r : Row} {it : Item}
    (h : it ∈ rowItems legajo r) : it.legajo = legajo := by
  rcases mem_rowItems.mp h with ⟨_, rfl⟩ | ⟨_, rfl⟩ | ⟨_, rfl⟩ | ⟨_, rfl⟩ | ⟨_, rfl⟩ | ⟨_, rfl⟩ <;>
    rfl

/-- The flag cell of a grid row addressed by kind (proof helper). -/
def flagGet (r : Row) : Tipo → Bool
  | Tipo.G => r.g
  | Tipo.F => r.f
  | Tipo.D => r.d
  | Tipo.HO => r.ho
  | _ => false

/-- The numeric cell of a grid row addressed by kind (proof helper). -/
def numGet (r : Row) : Tipo → ℚ
  | Tipo.HV => r.hv
  | Tipo.HE => r.he
  | _ => 0

lemma rowItems_mem_flag (legajo : String) (r : Row) (it : Item) (t : Tipo)
    (ht : t ∈ TIPOS_DIA) :
    (it ∈ rowItems legajo r ∧ it.tipo = t) ↔
      (flagGet r t = true ∧ it = flagItem legajo r t) := by
  have ht2 : t = Tipo.G ∨ t = Tipo.F ∨ t = Tipo.D ∨ t = Tipo.HO := by
    simpa [TIPOS_DIA] using ht
  constructor
  · rintro ⟨hmem, htip⟩
    rcases mem_rowItems.mp hmem with
        ⟨hc, rfl⟩ | ⟨hc, rfl⟩ | ⟨hc, rfl⟩ | ⟨hc, rfl⟩ | ⟨hc, rfl⟩ | ⟨hc, rfl⟩ <;>
      rcases ht2 with rfl | rfl | rfl | rfl <;>
        simp_all [flagItem, numItem, flagGet]
  · rintro ⟨hflag, rfl⟩
    rcases ht2 with rfl | rfl | rfl | rfl
    · exact ⟨mem_rowItems.mpr (Or.inl ⟨hflag, rfl⟩), rfl⟩
    · exact ⟨mem_rowItems.mpr (Or.inr (Or.inl ⟨hflag, rfl⟩)), rfl⟩
    · exact ⟨mem_rowItems.mpr (Or.inr (Or.inr (Or.inl ⟨hflag, rfl⟩))), rfl⟩
    · exact ⟨mem_rowItems.mpr (Or.inr (Or.inr (Or.inr (Or.inl ⟨hflag, rfl⟩)))), rfl⟩

lemma rowItems_mem_num (legajo : String) (r : Row) (it : Item) (t : Tipo)
    (ht : t = Tipo.HV ∨ t = Tipo.HE) :
    (it ∈ rowItems legajo r ∧ it.tipo = t) ↔
      (0 < numGet r t ∧ it = numItem legajo r t (numGet r t)) := by
  constructor
  · rintro ⟨hmem, htip⟩
    rcases mem_rowItems.mp hmem with
        ⟨hc, rfl⟩ | ⟨hc, rfl⟩ | ⟨hc, rfl⟩ | ⟨hc, rfl⟩ | ⟨hc, rfl⟩ | ⟨hc, rfl⟩ <;>
      rcases ht with rfl | rfl <;>
        simp_all [flagItem, numItem, numGet]
  · rintro ⟨hpos, rfl⟩
    rcases ht with rfl | rfl
    · exact ⟨mem_rowItems.mpr (Or.inr (Or.inr (Or.inr (Or.inr (Or.inl ⟨hpos, rfl⟩))))), rfl⟩
    · exact ⟨mem_rowItems.mpr (Or.inr (Or.inr (Or.inr (Or.inr (Or.inr ⟨hpos, rfl⟩))))), rfl⟩

lemma mem_rt_iff {L : String} {items : List Item} {y m : Nat} {it : Item} :
    it ∈ grid_to_items L (items_to_month_df items y m) ↔
      ∃ d ∈ month_dates y m, it ∈ rowItems L (rowFor items d) := by
  constructor
  · intro h
    rcases List.mem_flatMap.mp h with ⟨r, hr, hit⟩
    rcases List.mem_map.mp hr with ⟨d, hd, rfl⟩
    exact ⟨d, hd, hit⟩
  · rintro ⟨d, hd, hit⟩
    exact List.mem_flatMap.mpr ⟨rowFor items d, List.mem_map.mpr ⟨d, hd, rfl⟩, hit⟩

lemma flagGet_rowFor (items : List Item) (dt : Date) (t : Tipo) (ht : t ∈ TIPOS_DIA) :
    flagGet (rowFor items dt) t = flagOf (dayItems items dt) t := by
  have ht2 : t = Tipo.G ∨ t = Tipo.F ∨ t = Tipo.D ∨ t = Tipo.HO := by
    simpa [TIPOS_DIA] using ht
  rcases ht2 with rfl | rfl | rfl | rfl <;> rfl

lemma numGet_rowFor (items : List Item) (dt : Date) (t : Tipo)
    (ht : t = Tipo.HV ∨ t = Tipo.HE) :
    numGet (rowFor items dt) t = sumNum (dayItems items dt) t := by
  rcases ht with rfl | rfl <;> rfl

lemma flagOf_iff {lst : List Item} {t : Tipo} :
    flagOf lst t = true ↔ ∃ jt ∈ lst, jt.tipo = t := by
  simp [flagOf]

lemma mem_dayItems {items : List Item} {dt : Date} {jt : Item} :
    jt ∈ dayItems items dt ↔ jt ∈ items ∧ jt.fecha = dt := by
  simp [dayItems]

lemma foldl_add_nonneg (l : List Item) (acc : ℚ) (hacc : 0 ≤ acc)
    (h : ∀ it ∈ l, 0 ≤ it.valor_num.getD 0) :
    0 ≤ l.foldl (fun a it => a + it.valor_num.getD 0) acc := by
  induction l generalizing acc with
  | nil => simpa using hacc
  | cons x xs ih =>
      exact ih _ (add_nonneg hacc (h x (by simp))) (fun it hit => h it (by simp [hit]))

lemma sumNum_nonneg {items : List Item} {dt : Date} {t : Tipo}
    (h : ∀ it ∈ items, (it.tipo = Tipo.HV ∨ it.tipo = Tipo.HE) →
        it.valor_num ≠ none ∧ 0 ≤ it.valor_num.getD 0)
    (ht : t = Tipo.HV ∨ t = Tipo.HE) :
    0 ≤ sumNum (dayItems items dt) t := by
  unfold sumNum
  apply foldl_add_nonneg _ _ le_rfl
  intro it hit
  have h1 : it ∈ items := (mem_dayItems.mp (List.mem_filter.mp hit).1).1
  have h2 : it.tipo = t := by
    have := (List.mem_filter.mp hit).2
    simpa using this
  refine (h it h1 ?_).2
  rcases ht with rfl | rfl
  · exact Or.inl h2
  · exact Or.inr h2

lemma roundtrip_flag {L : String} {items : List Item} {y m : Nat} {d : Date} {t : Tipo}
    (hd : d ∈ month_dates y m) (ht : t ∈ TIPOS_DIA) :
    (∃ it ∈ grid_to_items L (items_to_month_df items y m),
        it.fecha = d ∧ it.tipo = t) ↔
      ∃ jt ∈ items, jt.fecha = d ∧ jt.tipo = t := by
  constructor
  · rintro ⟨it, hmem, hfe, htip⟩
    rcases mem_rt_iff.mp hmem with ⟨d2, hd2, hrow⟩
    have hfd : it.fecha = d2 := rowItems_fecha hrow
    have hdd : d2 = d := by rw [← hfd, hfe]
    subst hdd
    have hflag : flagGet (rowFor items d2) t = true :=
      ((rowItems_mem_flag L (rowFor items d2) it t ht).mp ⟨hrow, htip⟩).1
    rw [flagGet_rowFor items d2 t ht] at hflag
    rcases flagOf_iff.mp hflag with ⟨jt, hjt, hjtt⟩
    rcases mem_dayItems.mp hjt with ⟨hj1, hj2⟩
    exact ⟨jt, hj1, hj2, hjtt⟩
  · rintro ⟨jt, hjt, hfe, htip⟩
    have hflag : flagOf (dayItems items d) t = true :=
      flagOf_iff.mpr ⟨jt, mem_dayItems.mpr ⟨hjt, hfe⟩, htip⟩
    have hflag2 : flagGet (rowFor items d) t = true := by
      rw [flagGet_rowFor items d t ht]; exact hflag
    have hpair := (rowItems_mem_flag L (rowFor items d)
      (flagItem L (rowFor items d) t) t ht).mpr ⟨hflag2, rfl⟩
    exact ⟨flagItem L (rowFor items d) t, mem_rt_iff.mpr ⟨d, hd, hpair.1⟩, rfl, hpair.2⟩

lemma roundtrip_num {L : String} {items : List Item} {y m : Nat} {d : Date} {t : Tipo}
    (hd : d ∈ month_dates y m) (ht : t = Tipo.HV ∨ t = Tipo.HE) :
    ((∃ it ∈ grid_to_items L (items_to_month_df items y m),
        it.fecha = d ∧ it.tipo = t) ↔ 0 < sumNum (dayItems items d) t) ∧
    (∀ it ∈ grid_to_items L (items_to_month_df items y m),
        it.fecha = d → it.tipo = t →
          it.valor_num = some (sumNum (dayItems items d) t)) := by
  constructor
  · constructor
    · rintro ⟨it, hmem, hfe, htip⟩
      rcases mem_rt_iff.mp hmem with ⟨d2, hd2, hrow⟩
      have hfd : it.fecha = d2 := rowItems_fecha hrow
      have hdd : d2 = d := by rw [← hfd, hfe]
      subst hdd
      have hpos := ((rowItems_mem_num L (rowFor items d2) it t ht).mp ⟨hrow, htip⟩).1
      rwa [numGet_rowFor items d2 t ht] at hpos
    · intro hpos
      have hpos2 : 0 < numGet (rowFor items d) t := by
        rwa [numGet_rowFor items d t ht]
      have hpair := (rowItems_mem_num L (rowFor items d)
        (numItem L (rowFor items d) t (numGet (rowFor items d) t)) t ht).mpr ⟨hpos2, rfl⟩
      exact ⟨_, mem_rt_iff.mpr ⟨d, hd, hpair.1⟩, rfl, hpair.2⟩
  · intro it hmem hfe htip
    rcases mem_rt_iff.mp hmem with ⟨d2, hd2, hrow⟩
    have hfd : it.fecha = d2 := rowItems_fecha hrow
    have hdd : d2 = d := by rw [← hfd, hfe]
    subst hdd
    have heq := ((rowItems_mem_num L (rowFor items d2) it t ht).mp ⟨hrow, htip⟩).2
    rw [heq]
    simp [numItem, numGet_rowFor items d2 t ht]

lemma roundtrip_unique {L : String} {items : List Item} {y m : Nat} {it1 it2 : Item}
    (h1 : it1 ∈ grid_to_items L (items_to_month_df items y m))
    (h2 : it2 ∈ grid_to_items L (items_to_month_df items y m))
    (hfe : it1.fecha = it2.fecha) (hti : it1.tipo = it2.tipo) : it1 = it2 := by
  rcases mem_rt_iff.mp h1 with ⟨d1, hd1, hr1⟩
  rcases mem_rt_iff.mp h2 with ⟨d2, hd2, hr2⟩
  have e1 : it1.fecha = d1 := rowItems_fecha hr1
  have e2 : it2.fecha = d2 := rowItems_fecha hr2
  rw [e1, e2] at hfe
  subst hfe
  cases ht : it1.tipo with
  | G =>
      have p1 := (rowItems_mem_flag _ _ _ Tipo.G (by decide)).mp ⟨hr1, ht⟩
      have p2 := (rowItems_mem_flag _ _ _ Tipo.G (by decide)).mp ⟨hr2, by rw [← hti, ht]⟩
      rw [p1.2, p2.2]
  | F =>
      have p1 := (rowItems_mem_flag _ _ _ Tipo.F (by decide)).mp ⟨hr1, ht⟩
      have p2 := (rowItems_mem_flag _ _ _ Tipo.F (by decide)).mp ⟨hr2, by rw [← hti, ht]⟩
      rw [p1.2, p2.2]
  | D =>
      have p1 := (rowItems_mem_flag _ _ _ Tipo.D (by decide)).mp ⟨hr1, ht⟩
      have p2 := (rowItems_mem_flag _ _ _ Tipo.D (by decide)).mp ⟨hr2, by rw [← hti, ht]⟩
      rw [p1.2, p2.2]
  | HO =>
      have p1 := (rowItems_mem_flag _ _ _ Tipo.HO (by decide)).mp ⟨hr1, ht⟩
      have p2 := (rowItems_mem_flag _ _ _ Tipo.HO (by decide)).mp ⟨hr2, by rw [← hti, ht]⟩
      rw [p1.2, p2.2]
  | HV =>
      have p1 := (rowItems_mem_num _ _ _ Tipo.HV (Or.inl rfl)).mp ⟨hr1, ht⟩
      have p2 := (rowItems_mem_num _ _ _ Tipo.HV (Or.inl rfl)).mp ⟨hr2, by rw [← hti, ht]⟩
      rw [p1.2, p2.2]
  | HE =>
      have p1 := (rowItems_mem_num _ _ _ Tipo.HE (Or.inr rfl)).mp ⟨hr1, ht⟩
      have p2 := (rowItems_mem_num _ _ _ Tipo.HE (Or.inr rfl)).mp ⟨hr2, by rw [← hti, ht]⟩
      rw [p1.2, p2.2]

lemma roundtrip_range {L : String} {items : List Item} {y m : Nat} {it : Item}
    (h : it ∈ grid_to_items L (items_to_month_df items y m)) :
    it.legajo = L ∧ it.fecha ∈ month_dates y m := by
  rcases mem_rt_iff.mp h with ⟨d, hd, hr⟩
  have e : it.fecha = d := rowItems_fecha hr
  exact ⟨rowItems_legajo hr, by rw [e]; exact hd⟩

/-- C2: round-trip of the grid projection.  For items of one employee inside
one calendar month, with valid numeric values (present and non-negative),
converting the items to the month grid and back yields, per date and kind:
the same flag-kind presence; exactly one numeric item carrying the sum of
the input values of that kind on that date whenever that sum is positive and
none when it is zero (zero-valued numeric items are dropped); at most one
item per (date, kind); and only items of that employee on the month's
dates. -/
theorem grid_roundtrip (L : String) (y m : Nat) (items : List Item)
    (_hleg : ∀ it ∈ items, it.legajo = L)
    (_hmon : ∀ it ∈ items, it.fecha ∈ month_dates y m)
    (hval : ∀ it ∈ items, (it.tipo = Tipo.HV ∨ it.tipo = Tipo.HE) →
        it.valor_num ≠ none ∧ 0 ≤ it.valor_num.getD 0) :
    (∀ d ∈ month_dates y m, ∀ t ∈ TIPOS_DIA,
        ((∃ it ∈ grid_to_items L (items_to_month_df items y m),
            it.fecha = d ∧ it.tipo = t) ↔
         (∃ jt ∈ items, jt.fecha = d ∧ jt.tipo = t))) ∧
    (∀ d ∈ month_dates y m, ∀ t, t = Tipo.HV ∨ t = Tipo.HE →
        0 ≤ sumNum (dayItems items d) t ∧
        ((∃ it ∈ grid_to_items L (items_to_month_df items y m),
            it.fecha = d ∧ it.tipo = t) ↔ 0 < sumNum (dayItems items d) t) ∧
        (∀ it ∈ grid_to_items L (items_to_month_df items y m),
            it.fecha = d → it.tipo = t →
              it.valor_num = some (sumNum (dayItems items d) t))) ∧
    (∀ it1 ∈ grid_to_items L (items_to_month_df items y m),
      ∀ it2 ∈ grid_to_items L (items_to_month_df items y m),
        it1.fecha = it2.fecha → it1.tipo = it2.tipo → it1 = it2) ∧
    (∀ it ∈ grid_to_items L (items_to_month_df items y m),
        it.legajo = L ∧ it.fecha ∈ month_dates y m) := by
  refine ⟨?_, ?_, ?_, ?_⟩
  · intro d hd t ht
    exact roundtrip_flag hd ht
  · intro d hd t ht
    exact ⟨sumNum_nonneg hval ht, (roundtrip_num hd ht).1, (roundtrip_num hd ht).2⟩
  · intro it1 h1 it2 h2 hfe hti
    exact roundtrip_unique h1 h2 hfe hti
  · intro it h
    exact roundtrip_range h

/-- An example item list: a guardia flag and 2 travel hours on 2024-01-05,
and a zero-valued extra-hours item on 2024-01-07. -/
def exItems : List Item :=
  [ { legajo := "5478", fecha := { year := 2024, month := 1, day := 5 }, tipo := Tipo.G,
      valor_text := some "1", valor_num := none, comentario := none },
    { legajo := "5478", fecha := { year := 2024, month := 1, day := 5 }, tipo := Tipo.HV,
      valor_text := none, valor_num := some 2, comentario := some "viaje" },
    { legajo := "5478", fecha := { year := 2024, month := 1, day := 7 }, tipo := Tipo.HE,
      valor_text := none, valor_num := some 0, comentario := none } ]

/-- Witness for `grid_roundtrip`: on `exItems` the zero-valued HE item of
2024-01-07 does not survive the round trip. -/
theorem grid_roundtrip_witness :
    ¬ ∃ it ∈ grid_to_items "5478" (items_to_month_df exItems 2024 1),
        it.fecha = { year := 2024, month := 1, day := 7 } ∧ it.tipo = Tipo.HE := by
  have h := (grid_roundtrip "5478" 2024 1 exItems (by decide) (by decide) (by decide)).2.1
  have h2 := (h { year := 2024, month := 1, day := 7 } (by decide) Tipo.HE (Or.inr rfl)).2.1
  have hz : sumNum (dayItems exItems { year := 2024, month := 1, day := 7 }) Tipo.HE = 0 := by
    norm_num [sumNum, dayItems, exItems]
  rw [hz] at h2
  intro hex
  exact absurd (h2.mp hex) (lt_irrefl 0)

/-! ### Frame properties of the delete-then-insert replacement -/

lemma delete_items_eq_filter (table : List Item) (legajo : String) (fechas : List Date) :
    delete_items_for_dates table legajo fechas =
      table.filter fun it => !(it.legajo == strip legajo && fechas.contains it.fecha) := by
  unfold delete_items_for_dates
  split_ifs with h
  · rw [List.isEmpty_iff] at h
    subst h
    simp
  · rfl

lemma insert_items_eq (table items : List Item) :
    insert_items table items =
      table ++ items.map fun it => { it with legajo := strip it.legajo } := by
  unfold insert_items
  split_ifs with h
  · rw [List.isEmpty_iff] at h
    subst h
    simp
  · rfl

/-- C10: the delete-then-insert replacement performed by
`save_month_df_as_items` deletes only items that belong to the given
employee and whose date appears in the grid's date list: every pre-existing
item of another employee, or of the same employee on a date outside the
grid, is still in the table afterwards, and an item that disappeared
necessarily matched both the employee and one of the grid's dates. -/
theorem save_month_df_as_items_frame (table : List Item) (legajo : String)
    (y m : Nat) (df : List Row) :
    (∀ it ∈ table, (it.legajo ≠ strip legajo ∨ it.fecha ∉ df.map Row.fecha) →
        it ∈ save_month_df_as_items table legajo y m df) ∧
    (∀ it ∈ table, it ∉ save_month_df_as_items table legajo y m df →
        it.legajo = strip legajo ∧ it.fecha ∈ df.map Row.fecha) := by
  have hsave : save_month_df_as_items table legajo y m df =
      table.filter
          (fun it => !(it.legajo == strip legajo && (df.map Row.fecha).contains it.fecha)) ++
        (grid_to_items legajo df).map fun it => { it with legajo := strip it.legajo } := by
    have hdef : save_month_df_as_items table legajo y m df =
        insert_items (delete_items_for_dates table legajo (df.map Row.fecha))
          (grid_to_items legajo df) := rfl
    rw [hdef, delete_items_eq_filter, insert_items_eq]
  have hpres : ∀ it ∈ table, (it.legajo ≠ strip legajo ∨ it.fecha ∉ df.map Row.fecha) →
      it ∈ save_month_df_as_items table legajo y m df := by
    intro it hin hkeep
    rw [hsave]
    apply List.mem_append_left
    apply List.mem_filter.mpr
    refine ⟨hin, ?_⟩
    rcases hkeep with h | h <;> simp [h]
  refine ⟨hpres, ?_⟩
  intro it hin hnot
  by_contra hc
  rw [not_and_or] at hc
  refine hnot (hpres it hin ?_)
  rcases hc with h | h
  · exact Or.inl h
  · exact Or.inr h

/-- Witness for `save_month_df_as_items_frame`: an item of another employee
(6000) survives a save for employee 5478 that wipes its date. -/
theorem save_month_df_as_items_frame_witness :
    { legajo := "6000", fecha := { year := 2025, month := 1, day := 2 }, tipo := Tipo.G,
      valor_text := some "1", valor_num := none, comentario := none : Item } ∈
      save_month_df_as_items
        [ { legajo := "6000", fecha := { year := 2025, month := 1, day := 2 }, tipo := Tipo.G,
            valor_text := some "1", valor_num := none, comentario := none } ]
        "5478" 2025 1
        [ { fecha := { year := 2025, month := 1, day := 2 }, g := true, f := false, d := false,
            ho := false, hv := 0, he := 0, comentario := "" } ] :=
  (save_month_df_as_items_frame
      [ { legajo := "6000", fecha := { year := 2025, month := 1, day := 2 }, tipo := Tipo.G,
          valor_text := some "1", valor_num := none, comentario := none } ]
      "5478" 2025 1
      [ { fecha := { year := 2025, month := 1, day := 2 }, g := true, f := false, d := false,
          ho := false, hv := 0, he := 0, comentario := "" } ]).1
    _ (by decide) (Or.inl (by decide))

/-! ### The employee save action, src/app.py `page_empleado` -/

/-- Python `f"{n:04d}"`-style zero padding of a natural number. -/
def zfill (n w : Nat) : String :=
  let s := toString n
  String.mk (List.replicate (w - s.length) '0') ++ s

/-- `yyyymm_from_year_month(y, m)` (src/app.py lines 38-39):
`f"{y:04d}{m:02d}"`. -/
def yyyymm_from_year_month (y m : Nat) : String :=
  zfill y 4 ++ zfill m 2

/-- The "Guardar borrador" button of `page_empleado` (src/app.py lines
348-353): `save_month_df_as_items(...)` followed by
`update_parte_estado(secrets, legajo, periodo, "BORRADOR",
rejection_comment=None)`.  Returns the new items table and the new partes
table. -/
def guardar_borrador (partes : PartesDB) (table : List Item) (legajo : String)
    (y m : Nat) (edited : List Row) : List Item × PartesDB :=
  let periodo := yyyymm_from_year_month y m
  (save_month_df_as_items table legajo y m edited,
   update_parte_estado partes legajo periodo "BORRADOR" none none none none)

/-- A `partes` table holding one rejected (RECHAZADO) timesheet for employee
5478 and period 202501. -/
def rechazadoPartes : PartesDB := fun k =>
  if k = ("5478", "202501") then
    some { estado := "RECHAZADO", submitted_at := some "2025-01-20 10:00:00",
           approved_at := none, approved_by_legajo := some "9000",
           rejection_comment := some "faltan datos" }
  else none

/-- Counterexample to C1 as stated: saving a RECHAZADO timesheet does not
leave its state unchanged — the save button passes `"BORRADOR"` as the new
state, so the state becomes BORRADOR, not RECHAZADO. -/
theorem guardar_borrador_changes_estado :
    (rechazadoPartes ("5478", "202501")).map ParteData.estado = some "RECHAZADO" ∧
    ((guardar_borrador rechazadoPartes [] "5478" 2025 1 []).2 ("5478", "202501")).map
        ParteData.estado = some "BORRADOR" ∧
    (some "BORRADOR" : Option String) ≠ some "RECHAZADO" := by
  refine ⟨rfl, ?_, by decide⟩
  decide

/-- C1 amended: for every editable timesheet (state BORRADOR or RECHAZADO),
the save operation replaces the employee's daily items for the grid's dates
via delete-then-insert and sets the timesheet state to BORRADOR (DRAFT),
clearing the rejection comment and leaving the other columns unchanged; in
particular save from RECHAZADO moves the state to BORRADOR rather than
leaving it RECHAZADO. -/
theorem guardar_borrador_amended (partes : PartesDB) (table : List Item)
    (legajo : String) (y m : Nat) (edited : List Row) (r : ParteData)
    (h : partes (strip legajo, strip (yyyymm_from_year_month y m)) = some r)
    (_hed : r.estado = "BORRADOR" ∨ r.estado = "RECHAZADO") :
    (guardar_borrador partes table legajo y m edited).1 =
      insert_items (delete_items_for_dates table legajo (edited.map Row.fecha))
        (grid_to_items legajo edited) ∧
    (guardar_borrador partes table legajo y m edited).2
        (strip legajo, strip (yyyymm_from_year_month y m)) =
      some { estado := "BORRADOR", submitted_at := r.submitted_at,
             approved_at := r.approved_at,
             approved_by_legajo := r.approved_by_legajo,
             rejection_comment := none } := by
  refine ⟨rfl, ?_⟩
  simp [guardar_borrador, update_parte_estado, h, coalesce]

/-- Witness for `guardar_borrador_amended`: saving the rejected example
timesheet yields state BORRADOR with the rejection comment cleared. -/
theorem guardar_borrador_amended_witness :
    (guardar_borrador rechazadoPartes [] "5478" 2025 1 []).2 ("5478", "202501") =
      some { estado := "BORRADOR", submitted_at := some "2025-01-20 10:00:00",
             approved_at := none, approved_by_legajo := some "9000",
             rejection_comment := none } :=
  (guardar_borrador_amended rechazadoPartes [] "5478" 2025 1 []
      { estado := "RECHAZADO", submitted_at := some "2025-01-20 10:00:00",
        approved_at := none, approved_by_legajo := some "9000",
        rejection_comment := some "faltan datos" } (by decide) (Or.inr rfl)).2

/-! ### The leader reject action, src/app.py `page_lider` -/

/-- The "Confirmar rechazo" flow of `page_lider` (src/app.py lines 438-454):
if the trimmed comment is empty, show the error "El comentario es
obligatorio." and perform no update; otherwise call
`update_parte_estado(..., "RECHAZADO", approved_by_legajo=leader,
rejection_comment=comment.strip())`.  The first component is the error
message, if any; the second the (possibly updated) partes table. -/
def confirmar_rechazo (partes : PartesDB)
    (legajo_sel periodo_sel leader_legajo comment : String) :
    Option String × PartesDB :=
  if strip comment = "" then (some "El comentario es obligatorio.", partes)
  else (none,
    update_parte_estado partes legajo_sel periodo_sel "RECHAZADO"
      none none (some leader_legajo) (some (strip comment)))

/-- C3: for a submitted (ENVIADO) timesheet, rejecting with an empty or
whitespace-only comment fails with the validation error and performs no
mutation (the partes table is returned unchanged, so the state stays
ENVIADO), while rejecting with a non-empty trimmed comment moves the
timesheet to RECHAZADO with that comment stored and the deciding leader's id
recorded. -/
theorem confirmar_rechazo_spec (partes : PartesDB)
    (legajo periodo leader comment : String) (r : ParteData)
    (h : partes (strip legajo, strip periodo) = some r)
    (_hs : r.estado = "ENVIADO") :
    (strip comment = "" →
      confirmar_rechazo partes legajo periodo leader comment =
        (some "El comentario es obligatorio.", partes)) ∧
    (strip comment ≠ "" →
      (confirmar_rechazo partes legajo periodo leader comment).1 = none ∧
      (confirmar_rechazo partes legajo periodo leader comment).2
          (strip legajo, strip periodo) =
        some { estado := "RECHAZADO", submitted_at := r.submitted_at,
               approved_at := r.approved_at, approved_by_legajo := some leader,
               rejection_comment := some (strip comment) }) := by
  constructor
  · intro hc
    simp [confirmar_rechazo, hc]
  · intro hc
    constructor
    · simp [confirmar_rechazo, hc]
    · simp [confirmar_rechazo, hc, update_parte_estado, h, coalesce]

/-- Witness for `confirmar_rechazo_spec`: rejecting the submitted example
timesheet with comment "faltan recibos" stores the comment and the leader
id 9000, and rejecting it with a whitespace-only comment returns the
validation error with the table untouched. -/
theorem confirmar_rechazo_spec_witness :
    (confirmar_rechazo enviadoPartes "5478" "202501" "9000" "   ") =
      (some "El comentario es obligatorio.", enviadoPartes) ∧
    (confirmar_rechazo enviadoPartes "5478" "202501" "9000" "faltan recibos").2
        ("5478", "202501") =
      some { estado := "RECHAZADO", submitted_at := some "2025-02-01 09:00:00",
             approved_at := none, approved_by_legajo := some "9000",
             rejection_comment := some "faltan recibos" } :=
  ⟨(confirmar_rechazo_spec enviadoPartes "5478" "202501" "9000" "   "
      { estado := "ENVIADO", submitted_at := some "2025-02-01 09:00:00",
        approved_at := none, approved_by_legajo := none,
        rejection_comment := none } (by decide) rfl).1 (by decide),
   ((confirmar_rechazo_spec enviadoPartes "5478" "202501" "9000" "faltan recibos"
      { estado := "ENVIADO", submitted_at := some "2025-02-01 09:00:00",
        approved_at := none, approved_by_legajo := none,
        rejection_comment := none } (by decide) rfl).2 (by decide)).2⟩

/-! ### The `personal` table and `upsert_personal_rows`, src/db.py -/

/-- One row of the `personal` table (src/db.py `migrate`): `legajo` is the
primary key. -/
structure Person where
  legajo : String
  cuil : String
  nombre : String
  leader_legajo : String
  funcion : Option String
  origen : Option String
  lugar_trabajo : Option String
  extra_json : Option String
deriving DecidableEq, Repr

/-- The `personal` table as a map from the primary key `legajo` to the
row. -/
def PersonalDB : Type := String → Option Person

/-- One input record of `upsert_personal_rows`: the dictionary built by the
master-import step, with the four mandatory string fields and the optional
ones. -/
structure RawRow where
  legajo : String
  cuil : String
  nombre : String
  leader_legajo : String
  funcion : Option String
  origen : Option String
  lugar_trabajo : Option String
  extra_json : Option String
deriving DecidableEq, Repr

/-- The `personal` row written for one record by `upsert_personal_rows`
(src/db.py lines 193-216): the four mandatory fields are `str(x).strip()`ed,
the optional ones passed through. -/
def personOf (r : RawRow) : Person :=
  { legajo := strip r.legajo, cuil := strip r.cuil, nombre := strip r.nombre,
    leader_legajo := strip r.leader_legajo, funcion := r.funcion,
    origen := r.origen, lugar_trabajo := r.lugar_trabajo,
    extra_json := r.extra_json }

/-- `upsert_personal_rows` (src/db.py lines 181-255): for each record in
order, check existence by the stripped employee id, then
`INSERT .. ON CONFLICT(legajo) DO UPDATE` overwriting every mutable column,
and count the record as updated if it existed and as inserted otherwise.
Returns the final table and the `(inserted, updated)` counters. -/
def upsert_personal_rows (db : PersonalDB) : List RawRow → PersonalDB × Nat × Nat
  | [] => (db, 0, 0)
  | r :: rest =>
      let l := strip r.legajo
      let ex := (db l).isSome
      let db2 : PersonalDB := fun k => if k = l then some (personOf r) else db k
      let res := upsert_personal_rows db2 rest
      (res.1, (if ex then 0 else 1) + res.2.1, (if ex then 1 else 0) + res.2.2)

lemma upsert_apply_notmem (db : PersonalDB) (rows : List RawRow) (k : String)
    (hk : k ∉ rows.map fun r => strip r.legajo) :
    (upsert_personal_rows db rows).1 k = db k := by
  induction rows generalizing db with
  | nil => rfl
  | cons r rest ih =>
      simp only [List.map_cons, List.mem_cons, not_or] at hk
      rw [upsert_personal_rows]
      rw [ih _ hk.2]
      simp [hk.1]

lemma upsert_all_absent (db : PersonalDB) (rows : List RawRow)
    (hdist : (rows.map fun r => strip r.legajo).Nodup)
    (habs : ∀ r ∈ rows, db (strip r.legajo) = none) :
    (upsert_personal_rows db rows).2 = (rows.length, 0) ∧
    (∀ r ∈ rows, (upsert_personal_rows db rows).1 (strip r.legajo) = some (personOf r)) := by
  induction rows generalizing db with
  | nil => exact ⟨rfl, by simp⟩
  | cons r rest ih =>
      rw [List.map_cons] at hdist
      obtain ⟨hnm, hnd⟩ := List.nodup_cons.mp hdist
      have habs0 : db (strip r.legajo) = none := habs r (by simp)
      have h0 : (db (strip r.legajo)).isSome = false := by rw [habs0]; rfl
      have habs2 : ∀ q ∈ rest,
          ((fun k => if k = strip r.legajo then some (personOf r) else db k)
            (strip q.legajo)) = none := by
        intro q hq
        have hne : strip q.legajo ≠ strip r.legajo := by
          intro he
          exact hnm (by rw [← he]; exact List.mem_map.mpr ⟨q, hq, rfl⟩)
        simp only [if_neg hne]
        exact habs q (by simp [hq])
      obtain ⟨ihc, ihm⟩ :=
        ih (fun k => if k = strip r.legajo then some (personOf r) else db k) hnd habs2
      constructor
      · simp [upsert_personal_rows, h0, ihc, Nat.one_add]
      · intro q hq
        rcases List.mem_cons.mp hq with rfl | hq2
        · have hnot : strip q.legajo ∉ rest.map fun s => strip s.legajo := hnm
          simp only [upsert_personal_rows]
          rw [upsert_apply_notmem _ _ _ hnot]
          simp
        · simp only [upsert_personal_rows]
          exact ihm q hq2

lemma upsert_all_present (db : PersonalDB) (rows : List RawRow)
    (hpres : ∀ r ∈ rows, (db (strip r.legajo)).isSome = true) :
    (upsert_personal_rows db rows).2 = (0, rows.length) := by
  induction rows generalizing db with
  | nil => rfl
  | cons r rest ih =>
      have h0 : (db (strip r.legajo)).isSome = true := hpres r (by simp)
      have h2 : ∀ q ∈ rest,
          (((fun k => if k = strip r.legajo then some (personOf r) else db k)
            (strip q.legajo))).isSome = true := by
        intro q hq
        by_cases he : strip q.legajo = strip r.legajo
        · simp [he]
        · simp only [if_neg he]
          exact hpres q (by simp [hq])
      have hres := ih (fun k => if k = strip r.legajo then some (personOf r) else db k) h2
      simp [upsert_personal_rows, h0, hres, Nat.one_add]

/-- C5: `upsert_personal_rows` checks existence by stripped employee id per
record, counts a record as inserted when absent and as updated when present,
writing the record's fields either way; for a batch of records with pairwise
distinct employee ids none of which pre-exists, the first call returns
`(n, 0)` and leaves every record stored, and a second call with the
identical batch returns `(0, n)`. -/
theorem upsert_personal_rows_counts (db : PersonalDB) (rows : List RawRow)
    (hdist : (rows.map fun r => strip r.legajo).Nodup)
    (habs : ∀ r ∈ rows, db (strip r.legajo) = none) :
    (upsert_personal_rows db rows).2 = (rows.length, 0) ∧
    (∀ r ∈ rows, (upsert_personal_rows db rows).1 (strip r.legajo) = some (personOf r)) ∧
    (upsert_personal_rows (upsert_personal_rows db rows).1 rows).2 = (0, rows.length) := by
  obtain ⟨hc, hm⟩ := upsert_all_absent db rows hdist habs
  refine ⟨hc, hm, ?_⟩
  apply upsert_all_present
  intro r hr
  rw [hm r hr]
  rfl

/-- The empty `personal` table. -/
def emptyPersonal : PersonalDB := fun _ => none

/-- A batch of five personnel records with distinct employee ids. -/
def fiveRows : List RawRow :=
  [ { legajo := "5001", cuil := "20111111111", nombre := "Ana", leader_legajo := "9000",
      funcion := none, origen := none, lugar_trabajo := none, extra_json := none },
    { legajo := "5002", cuil := "20222222222", nombre := "Bruno", leader_legajo := "9000",
      funcion := none, origen := none, lugar_trabajo := none, extra_json := none },
    { legajo := "5003", cuil := "20333333333", nombre := "Carla", leader_legajo := "9000",
      funcion := none, origen := none, lugar_trabajo := none, extra_json := none },
    { legajo := "5004", cuil := "20444444444", nombre := "Diego", leader_legajo := "9000",
      funcion := none, origen := none, lugar_trabajo := none, extra_json := none },
    { legajo := "5005", cuil := "20555555555", nombre := "Elena", leader_legajo := "9000",
      funcion := none, origen := none, lugar_trabajo := none, extra_json := none } ]

/-- Witness for `upsert_personal_rows_counts`: the identical batch of 5
fresh records yields counters (5, 0) on the first call and (0, 5) on the
second. -/
theorem upsert_personal_rows_counts_witness :
    (upsert_personal_rows emptyPersonal fiveRows).2 = (5, 0) ∧
    (upsert_personal_rows (upsert_personal_rows emptyPersonal fiveRows).1 fiveRows).2 =
      (0, 5) :=
  ⟨(upsert_personal_rows_counts emptyPersonal fiveRows (by decide) (by decide)).1,
   (upsert_personal_rows_counts emptyPersonal fiveRows (by decide) (by decide)).2.2⟩

/-! ### Master import, src/excel_io.py -/

/-- The normalization applied to a header or alias by `_col`
(src/excel_io.py lines 8-18): `str(c).strip().lower()`. -/
def normHeader (s : String) : String :=
  lower (strip s)

/-- `_col(df, *candidates)` (src/excel_io.py lines 8-18): build the
dictionary from normalized header to original header (a later duplicate
normalized header overwrites an earlier one, hence `getLast?`), then return
the entry of the first candidate whose normalization is a key. -/
def _col (cols : List String) (candidates : List String) : Option String :=
  candidates.findSome? fun cand =>
    (cols.filter fun c => normHeader c == normHeader cand).getLast?

/-- Aliases accepted for the employee-id column (src/excel_io.py line 36). -/
def legajo_aliases : List String := ["Legajo", "Legajo Clear", "LegajoClear"]

/-- Aliases accepted for the national-id column (src/excel_io.py line 37). -/
def cuil_aliases : List String := ["CUIL"]

/-- Aliases accepted for the display-name column (src/excel_io.py line 38). -/
def nombre_aliases : List String := ["Nombre y Apellido", "Nombre", "Apellido y Nombre"]

/-- Aliases accepted for the leader-id column (src/excel_io.py line 39). -/
def leader_aliases : List String := ["leader_legajo", "Lider", "Líder", "Jefe", "leader"]

/-- The `missing` list built by `import_maestro_general` (src/excel_io.py
lines 42-46): one entry, in fixed order, for each mandatory logical field
whose `_col` lookup failed. -/
def missing_required (cols : List String) : List String :=
  (if (_col cols legajo_aliases).isSome then [] else ["Legajo (o Legajo Clear)"]) ++
  (if (_col cols cuil_aliases).isSome then [] else ["CUIL"]) ++
  (if (_col cols nombre_aliases).isSome then [] else ["Nombre y Apellido (o Nombre)"]) ++
  (if (_col cols leader_aliases).isSome then [] else ["leader_legajo (o Lider/Líder/Jefe)"])

/-- The column-resolution step of `import_maestro_general` (src/excel_io.py
lines 34-47): headers are stripped (`df.columns = [str(c).strip() ...]`),
the four mandatory columns are resolved through `_col`, and if any is
missing a `ValueError` is raised whose message joins every missing logical
field name.  `Except.error` carries the exception message. -/
def resolve_required_columns (headers : List String) :
    Except String (String × String × String × String) :=
  let cols := headers.map strip
  match _col cols legajo_aliases, _col cols cuil_aliases,
      _col cols nombre_aliases, _col cols leader_aliases with
  | some a, some b, some c, some d => Except.ok (a, b, c, d)
  | _, _, _, _ =>
      Except.error ("Faltan columnas requeridas en \x27General\x27: " ++
        String.intercalate ", " (missing_required cols))

/-- C7: whenever at least one mandatory logical field has no header matching
any of its aliases (matching is strip-and-lowercase insensitive), column
resolution fails with the error message that joins the `missing_required`
list, and that list names a field exactly when that field's alias lookup
failed — so every missing field is named, not only the first. -/
theorem resolve_required_columns_reports_all (headers : List String)
    (hmiss : missing_required (headers.map strip) ≠ []) :
    resolve_required_columns headers =
      Except.error ("Faltan columnas requeridas en \x27General\x27: " ++
        String.intercalate ", " (missing_required (headers.map strip))) ∧
    ("Legajo (o Legajo Clear)" ∈ missing_required (headers.map strip) ↔
      _col (headers.map strip) legajo_aliases = none) ∧
    ("CUIL" ∈ missing_required (headers.map strip) ↔
      _col (headers.map strip) cuil_aliases = none) ∧
    ("Nombre y Apellido (o Nombre)" ∈ missing_required (headers.map strip) ↔
      _col (headers.map strip) nombre_aliases = none) ∧
    ("leader_legajo (o Lider/Líder/Jefe)" ∈ missing_required (headers.map strip) ↔
      _col (headers.map strip) leader_aliases = none) := by
  cases h1 : _col (headers.map strip) legajo_aliases <;>
    cases h2 : _col (headers.map strip) cuil_aliases <;>
      cases h3 : _col (headers.map strip) nombre_aliases <;>
        cases h4 : _col (headers.map strip) leader_aliases <;>
          refine ⟨?_, ?_, ?_, ?_, ?_⟩ <;>
            simp_all [resolve_required_columns, missing_required]

/-- Witness for `resolve_required_columns_reports_all`: a sheet offering
only a CUIL column and a name column is rejected with a message naming both
the employee-id field and the leader-id field. -/
theorem resolve_required_columns_reports_all_witness :
    resolve_required_columns ["CUIL", "Nombre"] =
      Except.error ("Faltan columnas requeridas en \x27General\x27: " ++
        String.intercalate ", "
          ["Legajo (o Legajo Clear)", "leader_legajo (o Lider/Líder/Jefe)"]) ∧
    "Legajo (o Legajo Clear)" ∈ missing_required (["CUIL", "Nombre"].map strip) ∧
    "leader_legajo (o Lider/Líder/Jefe)" ∈ missing_required (["CUIL", "Nombre"].map strip) := by
  have h := resolve_required_columns_reports_all ["CUIL", "Nombre"] (by decide)
  have hm : missing_required (["CUIL", "Nombre"].map strip) =
      ["Legajo (o Legajo Clear)", "leader_legajo (o Lider/Líder/Jefe)"] := by decide
  refine ⟨by rw [h.1, hm], ?_, ?_⟩
  · exact h.2.1.mpr (by decide)
  · exact h.2.2.2.2.mpr (by decide)

/-- One sheet row as seen by the row loop of `import_maestro_general`
(src/excel_io.py lines 54-85), after column resolution: the cell of each
resolved column, `none` meaning a NaN cell (`pd.notna` false).  The
`extras` list carries the cells of the unrecognized columns, keyed by
header. -/
structure SheetRow where
  legajo : Option String
  cuil : Option String
  nombre : Option String
  leader : Option String
  funcion : Option String
  origen : Option String
  lugar : Option String
  extras : List (String × Option String)
deriving DecidableEq, Repr

/-- `str(cell).strip() if pd.notna(cell) else ""` (src/excel_io.py lines
55-61). -/
def cellVal : Option String → String
  | none => ""
  | some s => strip s

/-- `str(cell).strip() if col and pd.notna(cell) else None` for the optional
columns (src/excel_io.py lines 80-82). -/
def optCell : Option String → Option String
  | none => none
  | some s => some (strip s)

/-- A candidate record emitted by the row loop (src/excel_io.py lines
74-85); the extras bag keeps only non-NaN cells, keyed by original header
(the JSON serialization is modelled as the association list itself). -/
structure Candidate where
  legajo : String
  cuil : String
  nombre : String
  leader_legajo : String
  funcion : Option String
  origen : Option String
  lugar_trabajo : Option String
  extra : List (String × String)
deriving DecidableEq, Repr

/-- The candidate built from one retained row. -/
def candidateOf (r : SheetRow) : Candidate :=
  { legajo := cellVal r.legajo, cuil := cellVal r.cuil, nombre := cellVal r.nombre,
    leader_legajo := cellVal r.leader, funcion := optCell r.funcion,
    origen := optCell r.origen, lugar_trabajo := optCell r.lugar,
    extra := r.extras.filterMap fun kv => kv.2.map fun v => (kv.1, v) }

/-- The warning appended for a retained row with missing data
(src/excel_io.py line 64). -/
def rowWarning (legajo : String) : String :=
  "Legajo " ++ legajo ++ ": faltan datos (CUIL/NOMBRE/LÍDER)."

/-- The row loop of `import_maestro_general` (src/excel_io.py lines 53-87):
rows with a blank employee id are skipped with no record and no warning;
retained rows are emitted as candidates in order, preceded in the warning
list by one warning when CUIL, name or leader is blank. -/
def import_rows : List SheetRow → List Candidate × List String
  | [] => ([], [])
  | r :: rest =>
      if cellVal r.legajo = "" then import_rows rest
      else
        ((candidateOf r) :: (import_rows rest).1,
         (if cellVal r.cuil = "" ∨ cellVal r.nombre = "" ∨ cellVal r.leader = ""
          then [rowWarning (cellVal r.legajo)] else []) ++ (import_rows rest).2)

/-- C8: a row whose employee-id cell is empty or blank is silently skipped —
it contributes no candidate and no warning — while a retained row is always
emitted as a candidate, preceded by a warning referencing its employee id
exactly when its national id, display name or leader id is blank. -/
theorem import_rows_spec (r : SheetRow) (rest : List SheetRow) :
    (cellVal r.legajo = "" → import_rows (r :: rest) = import_rows rest) ∧
    (cellVal r.legajo ≠ "" →
      (import_rows (r :: rest)).1 = candidateOf r :: (import_rows rest).1 ∧
      (import_rows (r :: rest)).2 =
        (if cellVal r.cuil = "" ∨ cellVal r.nombre = "" ∨ cellVal r.leader = ""
         then [rowWarning (cellVal r.legajo)] else []) ++ (import_rows rest).2) := by
  constructor
  · intro h
    simp [import_rows, h]
  · intro h
    constructor
    · simp [import_rows, h]
    · simp [import_rows, h]

/-- Witness for `import_rows_spec`: a blank-legajo spacer row disappears
entirely, and a row missing its CUIL is emitted with a warning naming its
legajo. -/
theorem import_rows_spec_witness :
    import_rows
        [ { legajo := some "  ", cuil := some "20111111111", nombre := some "Ana",
            leader := some "9000", funcion := none, origen := none, lugar := none,
            extras := [] } ] = import_rows [] ∧
    (import_rows
        [ { legajo := some "5478", cuil := none, nombre := some "Ana",
            leader := some "9000", funcion := none, origen := none, lugar := none,
            extras := [] } ]).2 =
      ["Legajo 5478: faltan datos (CUIL/NOMBRE/LÍDER)."] := by
  constructor
  · exact (import_rows_spec
      { legajo := some "  ", cuil := some "20111111111", nombre := some "Ana",
        leader := some "9000", funcion := none, origen := none, lugar := none,
        extras := [] } []).1 (by decide)
  · have h := ((import_rows_spec
      { legajo := some "5478", cuil := none, nombre := some "Ana",
        leader := some "9000", funcion := none, origen := none, lugar := none,
        extras := [] } []).2 (by decide)).2
    rw [h]
    decide

end AppGuardias
